import Mathlib

/-!
Verification of the volunteer-certificate generator: a shallow embedding of
the application's string pipeline (transliteration, file-name derivation,
Turkish upper-casing), the PDF layout routine `generateCertificatePDF`
(modelled as the ordered list of text/save operations it performs), the
message composer `generateImpactMessage`, and the submit handler
`handleGenerate` with its issuance counter, together with theorems about
the documented behaviour.
-/

namespace Cert

/-- Model of JavaScript `String.prototype.trim`: drop Unicode whitespace from
both ends of the string, working on the underlying character list. -/
def jsTrim (s : String) : String :=
  ⟨((s.data.dropWhile Char.isWhitespace).reverse.dropWhile Char.isWhitespace).reverse⟩

/-- Model of `text.replace(/p/g, r)` for a single-character pattern `p`:
replace every occurrence of the character `p` by the character `r`. -/
def replaceChar (p r : Char) (s : String) : String :=
  ⟨s.data.map (fun c => if c = p then r else c)⟩

/-- Transliteration fallback from `pdfUtils`: maps each Turkish diacritic
letter to its closest plain-ASCII equivalent, case-preservingly, via a chain
of global single-character replacements (source: `sanitizeText`). -/
def sanitizeText (text : String) : String :=
  replaceChar 'Â' 'A' (replaceChar 'â' 'a'
    (replaceChar 'Ç' 'C' (replaceChar 'ç' 'c'
      (replaceChar 'Ö' 'O' (replaceChar 'ö' 'o'
        (replaceChar 'İ' 'I' (replaceChar 'ı' 'i'
          (replaceChar 'Ş' 'S' (replaceChar 'ş' 's'
            (replaceChar 'Ü' 'U' (replaceChar 'ü' 'u'
              (replaceChar 'Ğ' 'G' (replaceChar 'ğ' 'g' text)))))))))))))

/-- The Turkish diacritic codepoints handled by the transliteration table. -/
def isTurkishDiacritic (c : Char) : Bool :=
  c = 'ğ' || c = 'Ğ' || c = 'ü' || c = 'Ü' || c = 'ş' || c = 'Ş' ||
  c = 'ı' || c = 'İ' || c = 'ö' || c = 'Ö' || c = 'ç' || c = 'Ç' ||
  c = 'â' || c = 'Â'

/-- The per-character substitution table underlying `sanitizeText`
(the chain of single-character replacements collapsed to one map). -/
def sanitizeChar (c : Char) : Char :=
  if c = 'ğ' then 'g' else if c = 'Ğ' then 'G'
  else if c = 'ü' then 'u' else if c = 'Ü' then 'U'
  else if c = 'ş' then 's' else if c = 'Ş' then 'S'
  else if c = 'ı' then 'i' else if c = 'İ' then 'I'
  else if c = 'ö' then 'o' else if c = 'Ö' then 'O'
  else if c = 'ç' then 'c' else if c = 'Ç' then 'C'
  else if c = 'â' then 'a' else if c = 'Â' then 'A'
  else c

/-- Per-character model of `String.prototype.toLocaleUpperCase('tr-TR')`:
dotless/dotted i follow the Turkish convention, Turkish diacritic lowercase
letters map to their uppercase forms, ASCII letters upper-case as usual. -/
def trUpperChar (c : Char) : Char :=
  if c = 'i' then 'İ' else if c = 'ı' then 'I'
  else if c = 'ğ' then 'Ğ' else if c = 'ü' then 'Ü'
  else if c = 'ş' then 'Ş' else if c = 'ö' then 'Ö'
  else if c = 'ç' then 'Ç' else if c = 'â' then 'Â'
  else c.toUpper

/-- Turkish-locale upper-casing of a string (`name.toLocaleUpperCase('tr-TR')`). -/
def trUpper (s : String) : String := ⟨s.data.map trUpperChar⟩

/-- Characters kept verbatim by the file-name sanitization class `[a-zA-Z0-9_]`. -/
def isWordChar (c : Char) : Bool :=
  ('a' ≤ c && c ≤ 'z') || ('A' ≤ c && c ≤ 'Z') || ('0' ≤ c && c ≤ '9') || c = '_'

/-- Model of `text.replace(/\s+/g, '_')`: each maximal run of whitespace
characters becomes a single underscore. The flag tracks whether the previous
character was part of a whitespace run. -/
def collapseWsGo : Bool → List Char → List Char
  | _, [] => []
  | prevWs, c :: rest =>
    if c.isWhitespace then
      if prevWs then collapseWsGo true rest
      else '_' :: collapseWsGo true rest
    else c :: collapseWsGo false rest

/-- Replace each maximal whitespace run in a string by a single underscore. -/
def collapseWs (s : String) : String := ⟨collapseWsGo false s.data⟩

/-- Model of `text.replace(/[^a-zA-Z0-9_]/g, '_')`: every character outside
the word class is replaced by an underscore. -/
def replaceNonWord (s : String) : String :=
  ⟨s.data.map (fun c => if isWordChar c then c else '_')⟩

/-- File-name stem from the source's save step: transliterate the raw name,
trim it, collapse whitespace runs to underscores, then replace every
remaining non-word character by an underscore. -/
def safeFileName (name : String) : String :=
  replaceNonWord (collapseWs (jsTrim (sanitizeText name)))

/-- Fixed suffix appended to the delivered file name. -/
def fileSuffix : String := "_GonulluKatilimSertifikasi.pdf"

/-- Delivered file name: sanitized stem followed by the fixed suffix. -/
def deliveredFileName (name : String) : String := safeFileName name ++ fileSuffix

/-- Certificate request fields collected by the form (`types.ts`,
`CertificateData`). -/
structure CertificateData where
  name : String
  date : String
  impactMessage : String
deriving DecidableEq, Repr

/-- Optional presentation fields of `pdfUtils` (`CertificateExtras`), absent
fields modelled as `none` and defaulted inside the renderer via `??`. -/
structure CertificateInput extends CertificateData where
  institution : Option String := none
  departmentOrUnit : Option String := none
  coordinatorTitle : Option String := none
  coordinatorName : Option String := none
  location : Option String := none
  certificateNo : Option String := none
deriving DecidableEq, Repr

/-- Observable operations of the PDF document object that carry text or
deliver the file: `doc.text` calls (with the string handed to them, before
`splitTextToSize` re-flows its line breaks at whitespace) and the final
`doc.save` call with its file name.  Pure drawing calls (rects, circles,
lines) carry no text and are not observable here. -/
inductive PdfOp where
  | text (s : String)
  | save (fileName : String)
deriving DecidableEq, Repr

/-- Mode selector `t` from `generateCertificatePDF`: identity when the
Unicode font loaded, transliteration fallback otherwise. -/
def tText (fontLoaded : Bool) (text : String) : String :=
  if fontLoaded then text else sanitizeText text

/-- Default impact sentence substituted when the request's message is blank. -/
def defaultImpact : String :=
  "Katkılarınız, araştırma sürecimizin niteliğini ve güvenilirliğini güçlendirmiştir."

/-- Introductory paragraph literal of the certificate body. -/
def introRaw : String :=
  "Bu sertifika, yürütülen bilimsel çalışmalara gönüllü katılımı ve sunduğu değerli katkılar nedeniyle aşağıda adı yazılı katılımcıya takdim edilmiştir."

/-- Closing sentence literal of the certificate body. -/
def closingRaw : String :=
  "Sayın katılımcımıza teşekkür eder, akademik ve mesleki yaşamında başarılarının devamını dileriz."

/-- Shrink-to-fit loop of the name line: starting from the current size,
while the rendered width at that size exceeds the maximum width and the size
is above the floor 20, decrease the size by 2.  The width of the name at a
given font size is abstracted as a function `w`, standing for
`doc.getTextWidth` after `doc.setFontSize`. -/
def shrinkLoop (w : Nat → ℚ) (maxW : ℚ) (size : Nat) : Nat :=
  if maxW < w size ∧ 20 < size then shrinkLoop w maxW (size - 2) else size
termination_by size
decreasing_by omega

/-- Page width of a landscape A4 page in millimetres. -/
def pageWidth : ℚ := 297

/-- Maximum width allowed for the name line (`pageWidth - 90`). -/
def maxNameWidth : ℚ := pageWidth - 90

/-- Resolved font size of the participant name for a given width metric:
the loop starts at 40. -/
def resolvedNameFontSize (w : Nat → ℚ) : Nat := shrinkLoop w maxNameWidth 40

/-- Embedding of `generateCertificatePDF` as the ordered list of observable
text/save operations it performs.  `fontLoaded` stands for the result of
`loadCustomFonts` (network-dependent); every other step is translated from
the source in order: institution and unit lines, title, intro paragraph,
upper-cased name, impact message (default when blank), closing sentence,
footer date line (with optional location prefix), optional certificate
number line, coordinator title, optional coordinator name, and the save. -/
def generateCertificatePDF (data : CertificateInput) (fontLoaded : Bool) : List PdfOp :=
  let t := tText fontLoaded
  let institution := data.institution.getD "Tıpta Profesyonellik Bloğu"
  let unit := data.departmentOrUnit.getD "Bilimsel Araştırmalar ve Uygulamalar"
  let coordinatorTitle := data.coordinatorTitle.getD "Koordinatör"
  let coordinatorName := data.coordinatorName.getD ""
  let location := data.location.getD ""
  let certificateNo := data.certificateNo.getD ""
  let rawName := trUpper data.name
  let cleanName := t rawName
  let impactRaw := jsTrim data.impactMessage
  let impactTextBase := if impactRaw ≠ "" then impactRaw else defaultImpact
  let impactText := t impactTextBase
  let dateLabel := t "Düzenlenme Tarihi"
  let locPart := if location ≠ "" then t location ++ ", " else ""
  [PdfOp.text (t institution),
   PdfOp.text (t unit),
   PdfOp.text (t "GÖNÜLLÜ KATILIM SERTİFİKASI"),
   PdfOp.text (t introRaw),
   PdfOp.text cleanName,
   PdfOp.text impactText,
   PdfOp.text (t closingRaw),
   PdfOp.text (locPart ++ dateLabel ++ ": " ++ data.date)]
  ++ (if certificateNo ≠ "" then [PdfOp.text (t "Belge No" ++ ": " ++ certificateNo)] else [])
  ++ [PdfOp.text (t coordinatorTitle)]
  ++ (if jsTrim coordinatorName ≠ "" then [PdfOp.text (t coordinatorName)] else [])
  ++ [PdfOp.save (safeFileName data.name ++ fileSuffix)]

/-- Strings rendered into the document (the text operations, in order). -/
def renderedTexts (data : CertificateInput) (fontLoaded : Bool) : List String :=
  (generateCertificatePDF data fontLoaded).filterMap fun op =>
    match op with
    | PdfOp.text s => some s
    | PdfOp.save _ => none

/-- Predicate picking out the delivery operation. -/
def isSave : PdfOp → Bool
  | PdfOp.save _ => true
  | PdfOp.text _ => false

/-- Fixed fallback thank-you sentence of the message composer. -/
def defaultThanks : String :=
  "Bilimsel araştırmalarımıza sunduğunuz değerli katkılar için teşekkür ederiz."

/-- Embedding of `generateImpactMessage` from `geminiService.ts`.  The remote
call's outcome is a parameter: `Except.error` models a thrown transport or
API error (caught by the `try`), `Except.ok none` models a response with no
text, `Except.ok (some s)` a response with text `s`.  The source returns
`response.text?.trim() || default`, so an absent or blank text also falls
back to the default sentence. -/
def generateImpactMessage (result : Except String (Option String)) : String :=
  match result with
  | Except.error _ => defaultThanks
  | Except.ok none => defaultThanks
  | Except.ok (some s) => if jsTrim s = "" then defaultThanks else jsTrim s

/-- Per-client issuance record persisted in local storage (`types.ts`,
`UserStats`). -/
structure UserStats where
  count : Nat
  lastGenerated : String
deriving DecidableEq, Repr

/-- React state of the `App` component that `handleGenerate` reads and
writes, plus the local-storage table it persists to. -/
structure AppState where
  name : String
  ip : Option String
  count : Nat
  loading : Bool
  error : Option String
  isSuccess : Bool
  storage : List (String × UserStats)
deriving DecidableEq, Repr

/-- Blocking message shown when the issuance cap is reached. -/
def limitMsg : String :=
  "Üzgünüz, bu cihazdan maksimum 2 sertifika oluşturma limitine ulaştınız."

/-- Error message shown when PDF generation/delivery throws. -/
def pdfErrMsg : String :=
  "Sertifika PDF dosyası oluşturulurken bir hata oluştu. Lütfen internet bağlantınızı kontrol edip tekrar deneyin."

/-- Remaining-count display of the header: `Math.max(0, 2 - count)`. -/
def remainingDisplay (count : Nat) : Int := max 0 (2 - (count : Int))

/-- The `limitReached` flag of the component: `count >= 2`. -/
def limitReached (count : Nat) : Bool := 2 ≤ count

/-- Side effects performed by one submit, in order: the message-generation
call, the PDF render-and-deliver call, and the local-storage write. -/
inductive AppEffect where
  | generateMessage (name : String)
  | renderPdf (data : CertificateInput)
  | setStorage (key : String) (value : UserStats)
deriving DecidableEq, Repr

/-- Predicate picking out the render-and-deliver effect. -/
def isRenderPdf : AppEffect → Bool
  | AppEffect.renderPdf _ => true
  | _ => false

/-- Predicate picking out the storage-write effect. -/
def isSetStorage : AppEffect → Bool
  | AppEffect.setStorage _ _ => true
  | _ => false

/-- Embedding of the submit handler `handleGenerate`.  The outcomes of the
awaited calls are parameters: `impact` is the string returned by
`generateImpactMessage` (which never throws), `pdfResult` is `ok` when
`generateCertificatePDF` returned normally and `error` when it threw;
`dateStr` and `nowIso` stand for the two `new Date()` readings.  Returns the
new state together with the list of effects performed. -/
def handleGenerate (s : AppState) (impact : String) (pdfResult : Except String Unit)
    (dateStr nowIso : String) : AppState × List AppEffect :=
  if jsTrim s.name = "" then (s, [])
  else if 2 ≤ s.count then ({ s with error := some limitMsg }, [])
  else
    let s1 := { s with loading := true, error := none }
    let data : CertificateInput := { name := s.name, date := dateStr, impactMessage := impact }
    match pdfResult with
    | Except.ok _ =>
        let newCount := s.count + 1
        let key := match s.ip with
          | some ip => "cert_stats_" ++ ip
          | none => "cert_stats_generic"
        let stats : UserStats := { count := newCount, lastGenerated := nowIso }
        ({ s1 with count := newCount,
                   storage := (key, stats) :: s1.storage.filter (fun kv => kv.1 ≠ key),
                   isSuccess := true, name := "", loading := false },
         [AppEffect.generateMessage s.name, AppEffect.renderPdf data,
          AppEffect.setStorage key stats])
    | Except.error _ =>
        ({ s1 with error := some pdfErrMsg, loading := false },
         [AppEffect.generateMessage s.name, AppEffect.renderPdf data])

/-- A string is free of Turkish diacritics when none of its characters is in
the transliteration table's domain. -/
def noDiacritics (s : String) : Bool := s.data.all fun c => !isTurkishDiacritic c

/-- File-name derivation following the specification's words instead of the
source: every character outside `[A-Za-z0-9_]` is STRIPPED (removed), after
whitespace runs have been collapsed to single underscores; compared against
the source's `safeFileName`, which replaces such characters by underscores. -/
def specStripFileName (name : String) : String :=
  String.mk ((collapseWs (jsTrim (sanitizeText name))).data.filter isWordChar) ++ fileSuffix

/-- Example width metric of a short name: it fits at every size. -/
def widthFits : Nat → ℚ := fun _ => 100

/-- Example width metric of a long name: it overflows at size 40 and fits
below. -/
def widthWide : Nat → ℚ := fun size => if size = 40 then 400 else 100

/-- Demonstration state: a fresh client with zero issued certificates. -/
def demoState0 : AppState :=
  { name := "Ali", ip := some "1.2.3.4", count := 0, loading := false,
    error := none, isSuccess := false, storage := [] }

/-- State after the first successful issuance, with the name re-entered. -/
def demoState1 : AppState :=
  { (handleGenerate demoState0 "m" (Except.ok ()) "01.01.2025" "t1").1 with name := "Ali" }

/-- State after the second successful issuance, with the name re-entered. -/
def demoState2 : AppState :=
  { (handleGenerate demoState1 "m" (Except.ok ()) "01.01.2025" "t2").1 with name := "Ali" }

/-! Helper lemmas about the string pipeline. -/

theorem string_ext {s t : String} (h : s.data = t.data) : s = t := by
  cases s
  cases t
  exact congrArg String.mk h

theorem replaceChar_data (p r : Char) (s : String) :
    (replaceChar p r s).data = s.data.map (fun c => if c = p then r else c) := rfl

/-- The replacement chain of `sanitizeText` acts characterwise as
`sanitizeChar`: no replacement result is itself a pattern of a later
replacement, so the fourteen global passes collapse to one map. -/
theorem sanitizeText_data (s : String) : (sanitizeText s).data = s.data.map sanitizeChar := by
  unfold sanitizeText
  simp only [replaceChar_data]
  simp only [List.map_map]
  apply List.map_congr_left
  intro c _
  by_cases h1 : c = 'ğ'; · subst h1; decide
  by_cases h2 : c = 'Ğ'; · subst h2; decide
  by_cases h3 : c = 'ü'; · subst h3; decide
  by_cases h4 : c = 'Ü'; · subst h4; decide
  by_cases h5 : c = 'ş'; · subst h5; decide
  by_cases h6 : c = 'Ş'; · subst h6; decide
  by_cases h7 : c = 'ı'; · subst h7; decide
  by_cases h8 : c = 'İ'; · subst h8; decide
  by_cases h9 : c = 'ö'; · subst h9; decide
  by_cases h10 : c = 'Ö'; · subst h10; decide
  by_cases h11 : c = 'ç'; · subst h11; decide
  by_cases h12 : c = 'Ç'; · subst h12; decide
  by_cases h13 : c = 'â'; · subst h13; decide
  by_cases h14 : c = 'Â'; · subst h14; decide
  simp [sanitizeChar, Function.comp, h1, h2, h3, h4, h5, h6, h7, h8, h9, h10, h11, h12, h13,
    h14]

theorem sanitizeChar_cases (c : Char) : sanitizeChar c = c ∨ isTurkishDiacritic c = true := by
  by_cases h1 : c = 'ğ'; · subst h1; right; decide
  by_cases h2 : c = 'Ğ'; · subst h2; right; decide
  by_cases h3 : c = 'ü'; · subst h3; right; decide
  by_cases h4 : c = 'Ü'; · subst h4; right; decide
  by_cases h5 : c = 'ş'; · subst h5; right; decide
  by_cases h6 : c = 'Ş'; · subst h6; right; decide
  by_cases h7 : c = 'ı'; · subst h7; right; decide
  by_cases h8 : c = 'İ'; · subst h8; right; decide
  by_cases h9 : c = 'ö'; · subst h9; right; decide
  by_cases h10 : c = 'Ö'; · subst h10; right; decide
  by_cases h11 : c = 'ç'; · subst h11; right; decide
  by_cases h12 : c = 'Ç'; · subst h12; right; decide
  by_cases h13 : c = 'â'; · subst h13; right; decide
  by_cases h14 : c = 'Â'; · subst h14; right; decide
  left
  simp [sanitizeChar, h1, h2, h3, h4, h5, h6, h7, h8, h9, h10, h11, h12, h13, h14]

theorem sanitizeChar_fix {c : Char} (h : isTurkishDiacritic c = false) : sanitizeChar c = c := by
  rcases sanitizeChar_cases c with hfix | hdia
  · exact hfix
  · rw [hdia] at h
    exact absurd h (by simp)

theorem sanitizeChar_not_diacritic (c : Char) : isTurkishDiacritic (sanitizeChar c) = false := by
  by_cases h1 : c = 'ğ'; · subst h1; decide
  by_cases h2 : c = 'Ğ'; · subst h2; decide
  by_cases h3 : c = 'ü'; · subst h3; decide
  by_cases h4 : c = 'Ü'; · subst h4; decide
  by_cases h5 : c = 'ş'; · subst h5; decide
  by_cases h6 : c = 'Ş'; · subst h6; decide
  by_cases h7 : c = 'ı'; · subst h7; decide
  by_cases h8 : c = 'İ'; · subst h8; decide
  by_cases h9 : c = 'ö'; · subst h9; decide
  by_cases h10 : c = 'Ö'; · subst h10; decide
  by_cases h11 : c = 'ç'; · subst h11; decide
  by_cases h12 : c = 'Ç'; · subst h12; decide
  by_cases h13 : c = 'â'; · subst h13; decide
  by_cases h14 : c = 'Â'; · subst h14; decide
  have hnd : isTurkishDiacritic c = false := by
    simp [isTurkishDiacritic, h1, h2, h3, h4, h5, h6, h7, h8, h9, h10, h11, h12, h13, h14]
  rw [sanitizeChar_fix hnd]
  exact hnd

theorem sanitizeChar_idem (c : Char) : sanitizeChar (sanitizeChar c) = sanitizeChar c :=
  sanitizeChar_fix (sanitizeChar_not_diacritic c)

theorem sanitizeText_noDiacritics (s : String) : noDiacritics (sanitizeText s) = true := by
  rw [noDiacritics, List.all_eq_true]
  intro c hc
  rw [sanitizeText_data] at hc
  obtain ⟨x, _, rfl⟩ := List.mem_map.mp hc
  simp [sanitizeChar_not_diacritic x]

theorem string_data_append (a b : String) : (a ++ b).data = a.data ++ b.data := rfl

theorem noDiacritics_append (a b : String) :
    noDiacritics (a ++ b) = (noDiacritics a && noDiacritics b) := by
  rw [noDiacritics, noDiacritics, noDiacritics, string_data_append, List.all_append]

/-! Helper lemma for the shrink-to-fit loop. -/

theorem shrink_props (w : Nat → ℚ) (maxW : ℚ) :
    ∀ size, 2 ∣ size → 20 ≤ size →
      2 ∣ shrinkLoop w maxW size ∧ 20 ≤ shrinkLoop w maxW size ∧ shrinkLoop w maxW size ≤ size := by
  intro size
  induction size using Nat.strong_induction_on with
  | _ size ih =>
    intro hdvd hge
    rw [shrinkLoop]
    split
    · rename_i h
      have hlt : size - 2 < size := by omega
      obtain ⟨a, b, c⟩ := ih (size - 2) hlt (by omega) (by omega)
      exact ⟨a, b, by omega⟩
    · exact ⟨hdvd, hge, le_refl _⟩

theorem tText_false (s : String) : tText false s = sanitizeText s := rfl

theorem noDiacritics_colon : noDiacritics ": " = true := by decide

theorem noDiacritics_comma : noDiacritics ", " = true := by decide

theorem noDiacritics_empty : noDiacritics "" = true := by decide

theorem replaceNonWord_length (t : String) : (replaceNonWord t).length = t.length := by
  show (t.data.map (fun c => if isWordChar c then c else '_')).length = t.data.length
  exact List.length_map _ _

/-! Claim theorems. -/

set_option maxRecDepth 8192

/-- Claim C1: for a submission whose name is non-empty after trimming (and
which the gate permits), one issuance performs the render exactly once, the
render invokes the save exactly once, and the issuance counter and the
persisted record increase by exactly 1 when PDF generation succeeds and by 0
(with no storage write) when it throws. -/
theorem C1_one_document_counter_delta (s : AppState) (impact dateStr nowIso e : String)
    (hname : jsTrim s.name ≠ "") (hcap : s.count < 2) :
    ((handleGenerate s impact (Except.ok ()) dateStr nowIso).1.count = s.count + 1
      ∧ ((handleGenerate s impact (Except.ok ()) dateStr nowIso).2.countP isRenderPdf) = 1
      ∧ (∀ k v, AppEffect.setStorage k v ∈ (handleGenerate s impact (Except.ok ()) dateStr nowIso).2 →
          v.count = s.count + 1))
    ∧ ((handleGenerate s impact (Except.error e) dateStr nowIso).1.count = s.count
      ∧ ((handleGenerate s impact (Except.error e) dateStr nowIso).2.countP isRenderPdf) = 1
      ∧ (handleGenerate s impact (Except.error e) dateStr nowIso).1.storage = s.storage
      ∧ ((handleGenerate s impact (Except.error e) dateStr nowIso).2.countP isSetStorage) = 0)
    ∧ (∀ (data : CertificateInput) (loaded : Bool),
        ((generateCertificatePDF data loaded).countP isSave) = 1) := by
  have hc2 : ¬ 2 ≤ s.count := Nat.not_le.mpr hcap
  refine ⟨⟨?_, ?_, ?_⟩, ?_, ?_⟩
  · simp [handleGenerate, hname, hc2]
  · simp [handleGenerate, hname, hc2, isRenderPdf]
  · intro k v hv
    simp [handleGenerate, hname, hc2] at hv
    rw [hv.2]
  · refine ⟨?_, ?_, ?_, ?_⟩ <;> simp [handleGenerate, hname, hc2, isRenderPdf, isSetStorage]
  · intro data loaded
    simp only [generateCertificatePDF]
    by_cases h1 : data.certificateNo.getD "" ≠ "" <;>
      by_cases h2 : jsTrim (data.coordinatorName.getD "") ≠ "" <;>
        simp [h1, h2, isSave, List.countP_append, List.countP_cons, List.countP_nil]

/-- Claim C1 witness: a concrete successful issuance from a fresh state
increments the counter from 0 to 1. -/
theorem C1_one_document_counter_delta_witness :
    (handleGenerate ⟨"Ali", none, 0, false, none, false, []⟩ "m" (Except.ok ()) "d" "n").1.count
      = 0 + 1 :=
  (C1_one_document_counter_delta ⟨"Ali", none, 0, false, none, false, []⟩ "m" "d" "n" "e"
    (by decide) (by decide)).1.1

/-- Claim C2 counterexample: with fonts failed to load, a certificate number
containing a Turkish diacritic is interpolated into the footer without
passing through the transliteration fallback, so a literal diacritic appears
in the rendered document — refuting the claim that every piece of rendered
text, including every footer field, is sanitized. -/
theorem C2_counterexample :
    ¬ (∀ str ∈ renderedTexts
        { name := "A", date := "1", impactMessage := "x", certificateNo := some "Ş" } false,
        noDiacritics str = true) := by
  decide

/-- Claim C2 (amended): with fonts failed to load, every rendered text except
the issue-date value and the certificate-number value is passed through the
transliteration fallback; consequently no Turkish diacritic appears anywhere
in the document provided those two raw-interpolated fields contain none. -/
theorem C2_transliterated_when_fonts_fail (data : CertificateInput)
    (hdate : noDiacritics data.date = true)
    (hcert : noDiacritics (data.certificateNo.getD "") = true) :
    ((renderedTexts data false).all noDiacritics) = true := by
  by_cases hloc : data.location.getD "" = "" <;>
    by_cases hcertne : data.certificateNo.getD "" = "" <;>
      by_cases hcoord : jsTrim (data.coordinatorName.getD "") = "" <;>
        simp [renderedTexts, generateCertificatePDF, tText_false, hloc, hcertne, hcoord,
          List.all_append, noDiacritics_append, sanitizeText_noDiacritics, hdate, hcert,
          noDiacritics_colon, noDiacritics_comma, noDiacritics_empty]

/-- Claim C2 witness: a concrete request with diacritic-free date and no
certificate number renders, in fallback mode, a document with no Turkish
diacritic anywhere. -/
theorem C2_transliterated_when_fonts_fail_witness :
    ((renderedTexts ⟨⟨"Ahmet Yılmaz", "01.01.2025", ""⟩, none, none, none, none, none, none⟩
        false).all noDiacritics) = true :=
  C2_transliterated_when_fonts_fail
    ⟨⟨"Ahmet Yılmaz", "01.01.2025", ""⟩, none, none, none, none, none, none⟩
    (by decide) (by decide)

/-- Claim C3 counterexample: the source replaces each character outside
`[A-Za-z0-9_]` by an underscore rather than stripping it, so for the name
"A.B" the delivered file name differs from the claim's stripped derivation. -/
theorem C3_counterexample :
    deliveredFileName "A.B" = "A_B_GonulluKatilimSertifikasi.pdf"
      ∧ specStripFileName "A.B" = "AB_GonulluKatilimSertifikasi.pdf"
      ∧ deliveredFileName "A.B" ≠ specStripFileName "A.B" := by
  decide

/-- Claim C3 (amended): regardless of font-load outcome the delivered file
name is derived from the transliterated name by trimming, replacing each
whitespace run by a single underscore, and REPLACING (not stripping) each
remaining character outside `[A-Za-z0-9_]` by an underscore (so the stem
contains only word characters and the last step preserves length), followed
by the fixed suffix; for "Ahmet Yılmaz" with fonts failed the delivered name
is `Ahmet_Yilmaz_GonulluKatilimSertifikasi.pdf`. -/
theorem C3_filename_derivation :
    (∀ (data : CertificateInput) (loaded : Bool),
        PdfOp.save (deliveredFileName data.name) ∈ generateCertificatePDF data loaded)
    ∧ (∀ name : String, ((safeFileName name).data.all isWordChar) = true)
    ∧ (∀ name : String,
        (safeFileName name).length = (collapseWs (jsTrim (sanitizeText name))).length)
    ∧ PdfOp.save "Ahmet_Yilmaz_GonulluKatilimSertifikasi.pdf" ∈
        generateCertificatePDF ⟨⟨"Ahmet Yılmaz", "01.01.2025", ""⟩,
          none, none, none, none, none, none⟩ false := by
  refine ⟨?_, ?_, ?_, ?_⟩
  · intro data loaded
    simp [generateCertificatePDF, deliveredFileName]
  · intro name
    rw [List.all_eq_true]
    intro c hc
    simp only [safeFileName, replaceNonWord] at hc
    obtain ⟨x, _, rfl⟩ := List.mem_map.mp hc
    by_cases hx : isWordChar x = true
    · rw [if_pos hx]
      exact hx
    · rw [if_neg hx]
      decide
  · intro name
    rw [safeFileName]
    exact replaceNonWord_length _
  · decide

/-- Claim C4: the transliteration fallback is idempotent and its output
contains no Turkish diacritic codepoint, for every input string. -/
theorem C4_sanitize_idempotent_and_clean (x : String) :
    sanitizeText (sanitizeText x) = sanitizeText x ∧ noDiacritics (sanitizeText x) = true := by
  constructor
  · apply string_ext
    rw [sanitizeText_data, sanitizeText_data, List.map_map]
    apply List.map_congr_left
    intro c _
    exact sanitizeChar_idem c
  · exact sanitizeText_noDiacritics x

/-- Claim C5: the rendered name line is the Turkish-upper-cased (and, when
fonts failed, transliterated) name; the shrink-to-fit loop starting at size
40 with steps of 2 and floor 20 resolves to 40 exactly when the name fits at
40, resolves strictly below 40 when it overflows at 40, and always lands in
the step sequence 40, 38, ..., 20. -/
theorem C5_shrink_to_fit (w : Nat → ℚ) (maxW : ℚ) :
    (w 40 ≤ maxW → shrinkLoop w maxW 40 = 40)
    ∧ (maxW < w 40 → shrinkLoop w maxW 40 < 40)
    ∧ (20 ≤ shrinkLoop w maxW 40 ∧ shrinkLoop w maxW 40 ≤ 40 ∧ 2 ∣ shrinkLoop w maxW 40)
    ∧ (∀ (data : CertificateInput) (loaded : Bool),
        PdfOp.text (tText loaded (trUpper data.name)) ∈ generateCertificatePDF data loaded) := by
  refine ⟨?_, ?_, ?_, ?_⟩
  · intro h
    rw [shrinkLoop]
    rw [if_neg]
    intro hc
    exact absurd hc.1 (not_lt.mpr h)
  · intro h
    rw [shrinkLoop]
    rw [if_pos ⟨h, by norm_num⟩]
    have h38 := (shrink_props w maxW (40 - 2) (by norm_num) (by norm_num)).2.2
    omega
  · obtain ⟨a, b, c⟩ := shrink_props w maxW 40 (by norm_num) (by norm_num)
    exact ⟨b, c, a⟩
  · intro data loaded
    simp [generateCertificatePDF]

/-- Claim C5 witness: a name fitting at size 40 resolves to 40; a name
overflowing at size 40 resolves strictly below 40. -/
theorem C5_shrink_to_fit_witness :
    shrinkLoop widthFits maxNameWidth 40 = 40 ∧ shrinkLoop widthWide maxNameWidth 40 < 40 :=
  ⟨(C5_shrink_to_fit widthFits maxNameWidth).1
      (by norm_num [widthFits, maxNameWidth, pageWidth]),
   (C5_shrink_to_fit widthWide maxNameWidth).2.1
      (by norm_num [widthWide, maxNameWidth, pageWidth])⟩

/-- Claim C6 counterexample: from a fresh client state the first two calls
each render a certificate, after which the stored count is 2 and the THIRD
call is already blocked with the limit message and performs nothing —
refuting the claim that the gate permits the first three calls and blocks
only a fourth. -/
theorem C6_counterexample :
    ((handleGenerate demoState0 "m" (Except.ok ()) "01.01.2025" "t1").2.countP isRenderPdf) = 1
    ∧ ((handleGenerate demoState1 "m" (Except.ok ()) "01.01.2025" "t2").2.countP isRenderPdf) = 1
    ∧ demoState2.count = 2
    ∧ (handleGenerate demoState2 "m" (Except.ok ()) "01.01.2025" "t3").1.error = some limitMsg
    ∧ (handleGenerate demoState2 "m" (Except.ok ()) "01.01.2025" "t3").2 = [] := by
  decide

/-- Claim C6 (amended): the issuance gate permits the first two
certificate-issuance calls from a given client key and blocks the third call
once the cap of 2 is reached. -/
theorem C6_gate_cap_two (s : AppState) (impact : String) (pdfResult : Except String Unit)
    (dateStr nowIso : String) (hname : jsTrim s.name ≠ "") :
    (s.count < 2 → ((handleGenerate s impact pdfResult dateStr nowIso).2.countP isRenderPdf) = 1)
    ∧ (2 ≤ s.count →
        handleGenerate s impact pdfResult dateStr nowIso = ({ s with error := some limitMsg }, [])) := by
  constructor
  · intro hcap
    have hc2 : ¬ 2 ≤ s.count := Nat.not_le.mpr hcap
    cases pdfResult <;> simp [handleGenerate, hname, hc2, isRenderPdf]
  · intro hcap
    simp [handleGenerate, hname, hcap]

/-- Claim C6 witness: a concrete call at count 2 is blocked with the limit
message and performs no effect. -/
theorem C6_gate_cap_two_witness :
    handleGenerate ⟨"Ali", none, 2, false, none, false, []⟩ "m" (Except.ok ()) "d" "n"
      = ({ (⟨"Ali", none, 2, false, none, false, []⟩ : AppState) with error := some limitMsg }, []) :=
  (C6_gate_cap_two ⟨"Ali", none, 2, false, none, false, []⟩ "m" (Except.ok ()) "d" "n"
    (by decide)).2 (by decide)

/-- Claim C7: the remaining-count display shows 2, 1, 0, 0 for stored counts
0, 1, 2, 3 (it is `max 0 (2 - count)`), the limit flag holds exactly when
the count is at least 2, and a submit with a non-blank name is blocked (limit
error set, no effect performed) exactly when the count is at least 2. -/
theorem C7_remaining_and_blocking :
    (remainingDisplay 0 = 2 ∧ remainingDisplay 1 = 1 ∧ remainingDisplay 2 = 0
      ∧ remainingDisplay 3 = 0)
    ∧ (∀ count : Nat, limitReached count = true ↔ 2 ≤ count)
    ∧ (∀ (s : AppState) (impact : String) (pdfResult : Except String Unit)
        (dateStr nowIso : String), jsTrim s.name ≠ "" →
        (((handleGenerate s impact pdfResult dateStr nowIso).1.error = some limitMsg
          ∧ (handleGenerate s impact pdfResult dateStr nowIso).2 = []) ↔ 2 ≤ s.count)) := by
  refine ⟨by decide, ?_, ?_⟩
  · intro count
    simp [limitReached]
  · intro s impact pdfResult dateStr nowIso hname
    by_cases hcap : 2 ≤ s.count
    · simp [handleGenerate, hname, hcap]
    · cases pdfResult <;> simp [handleGenerate, hname, hcap]

/-- Claim C7 witness: at count 2 with a non-blank name, the submit is
blocked with the limit message and no effect. -/
theorem C7_remaining_and_blocking_witness :
    (handleGenerate ⟨"Ali", none, 2, false, none, false, []⟩ "m" (Except.ok ()) "d" "n").1.error
        = some limitMsg
    ∧ (handleGenerate ⟨"Ali", none, 2, false, none, false, []⟩ "m" (Except.ok ()) "d" "n").2 = [] :=
  (C7_remaining_and_blocking.2.2 ⟨"Ali", none, 2, false, none, false, []⟩ "m" (Except.ok ())
    "d" "n" (by decide)).mpr (by decide)

/-- Claim C8: the message composer returns the fixed default thank-you
sentence on a thrown error, on an absent response text, and on a
blank-after-trim response text; in every case it returns either the default
or the trimmed response text, never propagating a failure. -/
theorem C8_message_never_fails :
    (∀ e : String, generateImpactMessage (Except.error e) = defaultThanks)
    ∧ generateImpactMessage (Except.ok none) = defaultThanks
    ∧ (∀ s : String, jsTrim s = "" → generateImpactMessage (Except.ok (some s)) = defaultThanks)
    ∧ (∀ r : Except String (Option String),
        generateImpactMessage r = defaultThanks
          ∨ ∃ s, r = Except.ok (some s) ∧ generateImpactMessage r = jsTrim s) := by
  refine ⟨fun e => rfl, rfl, ?_, ?_⟩
  · intro s h
    simp [generateImpactMessage, h]
  · intro r
    match r with
    | Except.error e => exact Or.inl rfl
    | Except.ok none => exact Or.inl rfl
    | Except.ok (some s) =>
      by_cases h : jsTrim s = ""
      · exact Or.inl (by simp [generateImpactMessage, h])
      · exact Or.inr ⟨s, rfl, by simp [generateImpactMessage, h]⟩

/-- Claim C8 witness: a thrown network error and a blank response both yield
the default sentence. -/
theorem C8_message_never_fails_witness :
    generateImpactMessage (Except.error "network error") = defaultThanks
    ∧ generateImpactMessage (Except.ok (some " ")) = defaultThanks :=
  ⟨C8_message_never_fails.1 "network error",
   C8_message_never_fails.2.2.1 " " (by decide)⟩

/-- Claim C9: when the request's impact message is blank after trimming, the
document renders the fixed default impact sentence (transliterated when
fonts failed); a non-blank message is rendered (trimmed, mode-adjusted)
instead. -/
theorem C9_default_impact_sentence (data : CertificateInput) (loaded : Bool) :
    (jsTrim data.impactMessage = "" →
      PdfOp.text (tText loaded defaultImpact) ∈ generateCertificatePDF data loaded)
    ∧ (jsTrim data.impactMessage ≠ "" →
      PdfOp.text (tText loaded (jsTrim data.impactMessage)) ∈ generateCertificatePDF data loaded) := by
  constructor
  · intro h
    simp [generateCertificatePDF, h]
  · intro h
    simp [generateCertificatePDF, h]

/-- Claim C9 witness: the empty impact message of the end-to-end example
renders the transliterated default sentence when fonts failed. -/
theorem C9_default_impact_sentence_witness :
    PdfOp.text (tText false defaultImpact) ∈
      generateCertificatePDF ⟨⟨"Ahmet Yılmaz", "01.01.2025", ""⟩,
        none, none, none, none, none, none⟩ false :=
  (C9_default_impact_sentence
    ⟨⟨"Ahmet Yılmaz", "01.01.2025", ""⟩, none, none, none, none, none, none⟩ false).1 (by decide)

/-- Claim C10: a submit with a name that is blank after trimming returns
immediately: the state (counter, storage, error, flags) is unchanged and no
effect (message generation, render, delivery, storage write) is performed. -/
theorem C10_blank_name_noop (s : AppState) (impact : String) (pdfResult : Except String Unit)
    (dateStr nowIso : String) (h : jsTrim s.name = "") :
    handleGenerate s impact pdfResult dateStr nowIso = (s, []) := by
  simp [handleGenerate, h]

/-- Claim C10 witness: a whitespace-only name is a silent no-op. -/
theorem C10_blank_name_noop_witness :
    handleGenerate ⟨"  ", none, 0, false, none, false, []⟩ "m" (Except.ok ()) "d" "n"
      = (⟨"  ", none, 0, false, none, false, []⟩, []) :=
  C10_blank_name_noop ⟨"  ", none, 0, false, none, false, []⟩ "m" (Except.ok ()) "d" "n"
    (by decide)

end Cert
